import Mathlib

/-!
Verification of the top6webhook dashboard client.

A shallow embedding of the log-polling and dashboard client code of the
top6webhook repository, together with theorems settling the specification
claims about it.

The repository has two independent log-poller implementations:
* a full-refresh variant (`getLogData` / `updateLogs` in the first script):
  each tick fetches all logs, reverses them, takes the first 20 and fully
  replaces the rendered list;
* an incremental variant (`updateLogs` / `clearLogs` in the second script):
  each tick fetches logs with an optional `since` parameter taken from the
  `lastLogTimestamp` high-water mark, prepends new entries and trims the
  rendered list to 100.

The dashboard script (`dashboard.js`) provides the component registry
client (`refreshComponents`, `createAction`), the settings form handlers,
and the modal helpers (`showModal` / `closeModal`).

DOM mutations, HTTP requests and alerts are modelled as an explicit
`Effect` trace; network outcomes are passed in as values of small outcome
types, so every handler becomes a pure function from (state, outcome) to
(state, effects).
-/

namespace Top6Webhook

/-- A log entry as delivered by `GET /logs`:
`{ parent, event_time, event_data, event_type }`. -/
structure LogEntry where
  parent : String
  event_time : String
  event_data : String
  event_type : String
deriving Repr, DecidableEq

/-- Outcome of one `GET /logs` request: the jQuery `success` callback with
the parsed array, or the `error` callback with an error message. -/
inductive FetchOutcome where
  | ok (logs : List LogEntry)
  | err (error : String)
deriving Repr, DecidableEq

/-- Observable side effects of the handlers: alerts (`showAlert(type, msg)`),
HTTP requests being issued, the `closeModal()` call, hiding/showing the
tracked bootstrap modal, and `console.error` output. -/
inductive Effect where
  | alert (kind : String) (message : String)
  | httpGet (url : String)
  | httpPost (url : String)
  | modalClose
  | modalHide (target : String)
  | modalShow (target : String)
  | consoleError (message : String)
deriving Repr, DecidableEq

/-- Holds exactly on user-visible alert effects. -/
def isAlertEffect : Effect → Bool
  | .alert _ _ => true
  | _ => false

/-- Holds exactly on effects that issue an HTTP request. -/
def isRequestEffect : Effect → Bool
  | .httpGet _ => true
  | .httpPost _ => true
  | _ => false

/-- Holds exactly on success alerts. -/
def isSuccessAlert : Effect → Bool
  | .alert kind _ => kind == "success"
  | _ => false

/-- Asserts that `needle` occurs as a contiguous substring of `haystack`. -/
def strContains (haystack needle : String) : Prop :=
  ∃ pre post : List Char, pre ++ needle.data ++ post = haystack.data

/-! ## Full-refresh log poller (first script of the unnamed source file) -/

/-- The cap of the full-refresh variant: `data.slice(0, 20)`. -/
def FULL_LOG_LIMIT : Nat := 20

/-- The full-refresh `updateLogs(logs)`: `logContainer.empty()` followed by
`logs.forEach(log => logContainer.append(logEntry))` — the container ends up
holding exactly the passed entries, in order. -/
def renderFull (logs : List LogEntry) : List LogEntry :=
  logs.foldl (fun container log => container ++ [log]) []

/-- One tick of the full-refresh `getLogData()`, given the outcome of its
`GET /logs` request. On success the data is reversed, sliced to the first
20 entries and rendered, replacing the container; on error the container is
left alone and the error goes to the console. -/
def getLogDataTick (rendered : List LogEntry) : FetchOutcome → List LogEntry × List Effect
  | .ok data => (renderFull ((data.reverse).take FULL_LOG_LIMIT), [])
  | .err e => (rendered, [Effect.consoleError ("Error fetching logs: " ++ e)])

/-- The rendered list after a sequence of full-refresh ticks. -/
def runFullTicks (rendered : List LogEntry) (outcomes : List FetchOutcome) : List LogEntry :=
  outcomes.foldl (fun r o => (getLogDataTick r o).1) rendered

/-! ## Incremental log poller (second script of the unnamed source file) -/

/-- Client state of the incremental poller: the `lastLogTimestamp`
high-water mark (`null` initially) and the rendered `#logContainer`
contents, newest entry first (entries are prepended). -/
structure IncState where
  lastLogTimestamp : Option String
  rendered : List LogEntry
deriving Repr, DecidableEq

/-- State at page load: `lastLogTimestamp = null`, empty container. -/
def incInit : IncState := { lastLogTimestamp := none, rendered := [] }

/-- The cap of the incremental variant: `const maxLogs = 100`. -/
def maxLogs : Nat := 100

/-- The `GET /logs` request issued by one incremental tick. -/
structure LogsRequest where
  url : String
  method : String
  since : Option String
deriving Repr, DecidableEq

/-- The request data of an incremental tick, mirroring
`data: lastLogTimestamp ? { since: lastLogTimestamp } : {}`. JS truthiness:
both `null` and the empty string produce the empty parameter object. -/
def incLogsRequest (s : IncState) : LogsRequest :=
  { url := "/logs", method := "GET",
    since :=
      match s.lastLogTimestamp with
      | some t => if t = "" then none else some t
      | none => none }

/-- The `success` callback of the incremental `updateLogs`: when
`logs.length > 0` (i.e. `logs.getLast?` is `some`), set
`lastLogTimestamp = logs[logs.length - 1].event_time`, prepend each entry
to the container in order, and remove every `.log-entry` past index
`maxLogs - 1`, i.e. keep the first `maxLogs` entries. -/
def updateLogsSuccess (s : IncState) (logs : List LogEntry) : IncState :=
  match logs.getLast? with
  | some lastLog =>
      { lastLogTimestamp := some lastLog.event_time,
        rendered := (logs.foldl (fun container log => log :: container) s.rendered).take maxLogs }
  | none => s

/-- One tick of the incremental `updateLogs()`, given the outcome of its
`GET /logs` request. On error the state is untouched and the error goes to
the console. -/
def updateLogsTick (s : IncState) : FetchOutcome → IncState × List Effect
  | .ok logs => (updateLogsSuccess s logs, [])
  | .err e => (s, [Effect.consoleError ("Error fetching logs: " ++ e)])

/-- The incremental state after a sequence of ticks. -/
def runIncTicks (s : IncState) (outcomes : List FetchOutcome) : IncState :=
  outcomes.foldl (fun s o => (updateLogsTick s o).1) s

/-- Outcome of the `POST /logs/clear` request made by `clearLogs()`. -/
inductive ClearOutcome where
  | ok
  | err (error : String)
deriving Repr, DecidableEq

/-- The request `clearLogs()` issues before anything else. -/
def clearLogsRequest : Effect := Effect.httpPost "/logs/clear"

/-- The `window.clearLogs` handler: on success, empty the container, reset
`lastLogTimestamp` to `null` and show a success alert; on error, leave the
state alone and show a danger alert carrying the error text. -/
def clearLogs (s : IncState) : ClearOutcome → IncState × List Effect
  | .ok =>
      ({ lastLogTimestamp := none, rendered := [] },
       [Effect.alert "success" "Logs cleared successfully"])
  | .err e =>
      (s, [Effect.alert "danger" ("Error clearing logs: " ++ e)])

/-! ## Dashboard: component registry client (`dashboard.js`) -/

/-- An action row: `{ name, linkedEvents }`. -/
structure Action where
  name : String
  linkedEvents : List String
deriving Repr, DecidableEq

/-- An event row: `{ name, key, active }`. -/
structure Event where
  name : String
  key : String
  active : Bool
deriving Repr, DecidableEq

/-- The rendered registry tables (`#actionsTable`, `#eventsTable`),
holding the data of the rows of the prior successful render. -/
structure DashState where
  actionsTable : List Action
  eventsTable : List Event
deriving Repr, DecidableEq

/-- Joint outcome of the `Promise.all` over `fetch('/api/actions')` and
`fetch('/api/events')` (each followed by `r.json()`): both succeed, or the
whole refresh fails — a failed fetch or a body that does not parse rejects
the `Promise.all` before any table is touched. -/
inductive RegistryFetch where
  | ok (actions : List Action) (events : List Event)
  | err (error : String)
deriving Repr, DecidableEq

/-- The `refreshComponents()` handler: issue both GETs; on success replace both tables
via `updateActionsTable` / `updateEventsTable`; on any failure the `catch`
shows one generic danger alert and the tables are not touched. -/
def refreshComponents (s : DashState) : RegistryFetch → DashState × List Effect
  | .ok actions events =>
      ({ actionsTable := actions, eventsTable := events },
       [Effect.httpGet "/api/actions", Effect.httpGet "/api/events"])
  | .err _ =>
      (s,
       [Effect.httpGet "/api/actions", Effect.httpGet "/api/events",
        Effect.alert "danger" "Error refreshing components"])

/-- Outcome of a `fetch` POST as seen by the handlers: `response.ok`
(2xx), or a non-2xx response whose body text is thrown and caught. -/
inductive HttpResponse where
  | ok
  | errBody (body : String)
deriving Repr, DecidableEq

/-- The `#createActionForm` submit handler with the submitted name, given
the response to `POST /api/action/create`. On a 2xx response: success
alert mentioning the name, then `refreshComponents()` (which issues its two
GETs synchronously), then `closeModal()`. On a non-2xx response the body
text is thrown and the `catch` shows a danger alert carrying it. -/
def createActionSubmit (actionName : String) : HttpResponse → List Effect
  | .ok =>
      [Effect.alert "success" ("Action " ++ actionName ++ " created successfully!"),
       Effect.httpGet "/api/actions", Effect.httpGet "/api/events",
       Effect.modalClose]
  | .errBody body =>
      [Effect.alert "danger" ("Error creating action: " ++ body)]

/-- The `#apiForm` submit handler, given the response to
`POST /api/settings/binance`. -/
def apiFormSubmit : HttpResponse → List Effect
  | .ok => [Effect.alert "success" "Binance settings updated successfully!"]
  | .errBody body =>
      [Effect.alert "danger" ("Error updating Binance settings: " ++ body)]

/-! ## Dashboard: modal helpers -/

/-- The tracked modal reference: `currentModal`, `null` at page load. The
tracked instance is always built over the `#componentModal` container. -/
structure ModalState where
  currentModal : Option String
deriving Repr, DecidableEq

/-- The `showModal(title, content)` helper: replace title/body, track a fresh
`bootstrap.Modal('#componentModal')` and show it. -/
def showModal (_s : ModalState) (_title _content : String) : ModalState × List Effect :=
  ({ currentModal := some "#componentModal" }, [Effect.modalShow "#componentModal"])

/-- The `closeModal()` helper, `if (currentModal) currentModal.hide();` — hides the
tracked instance when one is tracked, does nothing otherwise; it never
clears the tracked reference. -/
def closeModal (s : ModalState) : ModalState × List Effect :=
  match s.currentModal with
  | some m => (s, [Effect.modalHide m])
  | none => (s, [])

/-! ## Helper lemmas -/

theorem renderFull_eq_id : ∀ (logs acc : List LogEntry),
    logs.foldl (fun container log => container ++ [log]) acc = acc ++ logs := by
  intro logs
  induction logs with
  | nil => intro acc; simp
  | cons x xs ih => intro acc; simp [ih]

theorem renderFull_eq (logs : List LogEntry) : renderFull logs = logs := by
  simpa using renderFull_eq_id logs []

theorem prependAll_eq : ∀ (logs acc : List LogEntry),
    logs.foldl (fun container log => log :: container) acc = logs.reverse ++ acc := by
  intro logs
  induction logs with
  | nil => intro acc; simp
  | cons x xs ih => intro acc; simp [ih]

theorem getLogDataTick_length_le (r : List LogEntry) (o : FetchOutcome)
    (h : r.length ≤ FULL_LOG_LIMIT) :
    ((getLogDataTick r o).1).length ≤ FULL_LOG_LIMIT := by
  cases o with
  | ok data =>
      simpa [getLogDataTick, renderFull_eq] using
        List.length_take_le FULL_LOG_LIMIT (data.reverse)
  | err e => simpa [getLogDataTick] using h

theorem updateLogsSuccess_length_le (s : IncState) (logs : List LogEntry)
    (h : s.rendered.length ≤ maxLogs) :
    ((updateLogsSuccess s logs).rendered).length ≤ maxLogs := by
  unfold updateLogsSuccess
  cases hl : logs.getLast? with
  | none => simp [h]
  | some lastLog => simpa using List.length_take_le maxLogs _

theorem updateLogsTick_length_le (s : IncState) (o : FetchOutcome)
    (h : s.rendered.length ≤ maxLogs) :
    (((updateLogsTick s o).1).rendered).length ≤ maxLogs := by
  cases o with
  | ok logs => simpa [updateLogsTick] using updateLogsSuccess_length_le s logs h
  | err e => simpa [updateLogsTick] using h

theorem runFullTicks_length_le (outcomes : List FetchOutcome) :
    ∀ r : List LogEntry, r.length ≤ FULL_LOG_LIMIT →
      (runFullTicks r outcomes).length ≤ FULL_LOG_LIMIT := by
  induction outcomes with
  | nil => intro r h; simpa [runFullTicks] using h
  | cons o os ih =>
      intro r h
      simpa [runFullTicks] using ih _ (getLogDataTick_length_le r o h)

theorem runIncTicks_length_le (outcomes : List FetchOutcome) :
    ∀ s : IncState, s.rendered.length ≤ maxLogs →
      ((runIncTicks s outcomes).rendered).length ≤ maxLogs := by
  induction outcomes with
  | nil => intro s h; simpa [runIncTicks] using h
  | cons o os ih =>
      intro s h
      simpa [runIncTicks] using ih _ (updateLogsTick_length_le s o h)

/-! ## Claim theorems -/

/-- Claim C1, amended. Incremental poller: after a tick of `updateLogs`
whose response is a non-empty list, the high-water mark equals the
`event_time` of the last element of that response; every subsequent poll
issued while the mark is set to that value carries it as the `since`
parameter of its GET /logs request, provided that value is a non-empty
string (an empty-string mark is falsy in JS, so the request builder omits
the parameter). -/
theorem C1_incremental_mark_amended (s : IncState) (logs : List LogEntry) (h : logs ≠ []) :
    ((updateLogsTick s (FetchOutcome.ok logs)).1).lastLogTimestamp
      = some ((logs.getLast h).event_time) ∧
    ∀ s' : IncState,
      s'.lastLogTimestamp = some ((logs.getLast h).event_time) →
      (logs.getLast h).event_time ≠ "" →
      (incLogsRequest s').since = some ((logs.getLast h).event_time) := by
  constructor
  · simp [updateLogsTick, updateLogsSuccess, List.getLast?_eq_getLast_of_ne_nil h]
  · intro s' hs hne
    simp [incLogsRequest, hs, hne]

/-- Claim C1, counterexample to the original statement: a response whose
last element has `event_time = ""` sets the high-water mark to `some ""`,
yet the subsequent poll's request does not carry `""` as its `since`
parameter (JS truthiness treats the empty string as unset). -/
theorem C1_incremental_mark_counterexample :
    ((updateLogsTick incInit (FetchOutcome.ok
        [{ parent := "EventX", event_time := "", event_data := "fired",
           event_type := "INFO" }])).1).lastLogTimestamp = some "" ∧
    (incLogsRequest ((updateLogsTick incInit (FetchOutcome.ok
        [{ parent := "EventX", event_time := "", event_data := "fired",
           event_type := "INFO" }])).1)).since = none := by
  constructor <;> rfl

/-- Claim C1, witness: the amended theorem evaluated at a singleton
response with a non-empty timestamp. -/
theorem C1_incremental_mark_witness :
    ((updateLogsTick incInit (FetchOutcome.ok
        [{ parent := "EventX", event_time := "2024-01-01T00:00:00Z",
           event_data := "fired", event_type := "INFO" }])).1).lastLogTimestamp
      = some "2024-01-01T00:00:00Z" ∧
    (incLogsRequest ((updateLogsTick incInit (FetchOutcome.ok
        [{ parent := "EventX", event_time := "2024-01-01T00:00:00Z",
           event_data := "fired", event_type := "INFO" }])).1)).since
      = some "2024-01-01T00:00:00Z" := by
  have h := C1_incremental_mark_amended incInit
      [{ parent := "EventX", event_time := "2024-01-01T00:00:00Z",
         event_data := "fired", event_type := "INFO" }] (by decide)
  exact ⟨h.1, h.2 _ h.1 (by decide)⟩

/-- Claim C2. For every sequence of poller ticks starting at page load,
the rendered log list length never exceeds the active variant's cap: at
most 20 entries after any full-refresh tick, at most 100 entries after any
incremental tick. -/
theorem C2_rendered_length_caps (outcomes : List FetchOutcome) :
    (runFullTicks [] outcomes).length ≤ 20 ∧
    ((runIncTicks incInit outcomes).rendered).length ≤ 100 := by
  exact ⟨runFullTicks_length_le outcomes [] (by simp),
    runIncTicks_length_le outcomes incInit (by simp [incInit])⟩

/-- Claim C3. `clearLogs()` issues POST /logs/clear; on backend success
the rendered list is emptied, the high-water mark reset to none and a
success alert shown; on failure both are left unchanged and a danger alert
is shown. -/
theorem C3_clearLogs_behaviour (s : IncState) (e : String) :
    clearLogsRequest = Effect.httpPost "/logs/clear" ∧
    clearLogs s ClearOutcome.ok =
      ({ lastLogTimestamp := none, rendered := [] },
       [Effect.alert "success" "Logs cleared successfully"]) ∧
    clearLogs s (ClearOutcome.err e) =
      (s, [Effect.alert "danger" ("Error clearing logs: " ++ e)]) :=
  ⟨rfl, rfl, rfl⟩

/-- Claim C4. Registry refresh is atomic on failure: when the fetch of
/api/actions or /api/events (or parsing its body) fails, the state — both
tables — is exactly the prior one, and exactly one generic danger alert is
produced. -/
theorem C4_refresh_atomic_on_failure (s : DashState) (e : String) :
    (refreshComponents s (RegistryFetch.err e)).1 = s ∧
    ((refreshComponents s (RegistryFetch.err e)).2.filter isAlertEffect)
      = [Effect.alert "danger" "Error refreshing components"] :=
  ⟨rfl, rfl⟩

/-- Claim C5. Full-refresh poller: a tick whose response is `xs` renders
exactly the first 20 elements of `xs.reverse` — all of `xs.reverse` when
`xs` has fewer than 20 elements — replacing the previously rendered list
(the result does not depend on `prev`). -/
theorem C5_full_refresh_render (prev xs : List LogEntry) :
    (getLogDataTick prev (FetchOutcome.ok xs)).1 = (xs.reverse).take 20 ∧
    (xs.length < 20 → (getLogDataTick prev (FetchOutcome.ok xs)).1 = xs.reverse) := by
  constructor
  · simp [getLogDataTick, renderFull_eq, FULL_LOG_LIMIT]
  · intro h
    simp only [getLogDataTick, renderFull_eq, FULL_LOG_LIMIT]
    exact List.take_of_length_le (by simpa using Nat.le_of_lt h)

/-- Claim C5, witness: a single-element response renders exactly that
element. -/
theorem C5_full_refresh_render_witness :
    (getLogDataTick [] (FetchOutcome.ok
        [{ parent := "EventX", event_time := "2024-01-01T00:00:00Z",
           event_data := "fired", event_type := "INFO" }])).1
      = [{ parent := "EventX", event_time := "2024-01-01T00:00:00Z",
           event_data := "fired", event_type := "INFO" }] := by
  have h := (C5_full_refresh_render []
      [{ parent := "EventX", event_time := "2024-01-01T00:00:00Z",
         event_data := "fired", event_type := "INFO" }]).2 (by decide)
  simpa using h

/-- Claim C6. A failed log fetch, in both variants, reports to the console
only: the returned state is unchanged, and the effect trace is exactly one
console error — no alert and no further request (no retry). -/
theorem C6_log_fetch_error (r : List LogEntry) (s : IncState) (e : String) :
    getLogDataTick r (FetchOutcome.err e)
      = (r, [Effect.consoleError ("Error fetching logs: " ++ e)]) ∧
    updateLogsTick s (FetchOutcome.err e)
      = (s, [Effect.consoleError ("Error fetching logs: " ++ e)]) ∧
    ((getLogDataTick r (FetchOutcome.err e)).2.all
        (fun eff => !(isAlertEffect eff) && !(isRequestEffect eff))) = true ∧
    ((updateLogsTick s (FetchOutcome.err e)).2.all
        (fun eff => !(isAlertEffect eff) && !(isRequestEffect eff))) = true :=
  ⟨rfl, rfl, rfl, rfl⟩

/-- Claim C7. Create-action flow: a 2xx response to POST /api/action/create
yields a success alert containing the submitted name, followed by the
registry refresh GETs (starting with /api/actions) and the closeModal call;
a non-2xx response yields a danger alert containing the response body. -/
theorem C7_createAction_flow (name body : String) :
    createActionSubmit name HttpResponse.ok =
      [Effect.alert "success" ("Action " ++ name ++ " created successfully!"),
       Effect.httpGet "/api/actions", Effect.httpGet "/api/events",
       Effect.modalClose] ∧
    strContains ("Action " ++ name ++ " created successfully!") name ∧
    createActionSubmit name (HttpResponse.errBody body) =
      [Effect.alert "danger" ("Error creating action: " ++ body)] ∧
    strContains ("Error creating action: " ++ body) body := by
  refine ⟨rfl, ⟨"Action ".data, " created successfully!".data, ?_⟩, rfl,
    ⟨"Error creating action: ".data, [], ?_⟩⟩
  · simp [String.data_append]
  · simp [String.data_append]

/-- Claim C8. Settings submission failure: a non-2xx response to
POST /api/settings/binance with body text produces exactly one danger alert
whose text includes that body, and no success alert. -/
theorem C8_settings_failure_alert (body : String) :
    apiFormSubmit (HttpResponse.errBody body)
      = [Effect.alert "danger" ("Error updating Binance settings: " ++ body)] ∧
    strContains ("Error updating Binance settings: " ++ body) body ∧
    (apiFormSubmit (HttpResponse.errBody body)).all
        (fun eff => !(isSuccessAlert eff)) = true := by
  refine ⟨rfl, ⟨"Error updating Binance settings: ".data, [], ?_⟩, rfl⟩
  simp [String.data_append]

/-- Claim C9. `closeModal()` hides the tracked modal instance when one is
tracked, and is a no-op — neither an error nor a state change, no effect
at all — when `currentModal` is null, as at page load. -/
theorem C9_closeModal_behaviour (m : String) :
    closeModal { currentModal := some m }
      = ({ currentModal := some m }, [Effect.modalHide m]) ∧
    closeModal { currentModal := none } = ({ currentModal := none }, []) :=
  ⟨rfl, rfl⟩

/-- Claim C10. Incremental poller, empty-response frame condition: a tick
whose response is the empty list changes nothing — the whole state (both
the high-water mark and the rendered list) is exactly as before, and no
effect is produced. -/
theorem C10_empty_response_frame (s : IncState) :
    updateLogsTick s (FetchOutcome.ok []) = (s, []) ∧
    ((updateLogsTick s (FetchOutcome.ok [])).1).lastLogTimestamp = s.lastLogTimestamp ∧
    ((updateLogsTick s (FetchOutcome.ok [])).1).rendered = s.rendered :=
  ⟨rfl, rfl, rfl⟩

end Top6Webhook
